import Mathlib

/-!
Verification of the aggregation core of `extract_metrics.py` (ZenML
Unwrapped workspace extraction).  The Python source is shallowly embedded:
records become structures with optional fields, Python dictionaries become
update-functions or association folds, machine arithmetic on counts becomes
Nat/Int, float arithmetic done on exact inputs becomes Rat with an explicit
model of the banker-rounding `round` builtin, and fallible operations
return Option or Except.  Every definition mirrors a function of the
source file; spec-side reformulations used for refinement statements carry
a Spec suffix.
-/

/-! ### Python value basics: truthiness, str.lower, int(), round() -/

/-- Model of one character step of Python `str.lower` (ASCII range, which is
all the data the script feeds it: status enums and field names). -/
def pyLowerChar (c : Char) : Char :=
  if 65 ≤ c.toNat ∧ c.toNat ≤ 90 then Char.ofNat (c.toNat + 32) else c

/-- Model of Python `str.lower`. -/
def pyLower (s : String) : String :=
  ⟨s.data.map pyLowerChar⟩

/-- Does the string contain an ASCII uppercase letter? (Used to state that
normalized statuses are lowercase.) -/
def hasUpperA (s : String) : Bool :=
  s.data.any (fun c => 65 ≤ c.toNat && c.toNat ≤ 90)

/-- Truthiness of a Python optional string (`None` and the empty string are
falsy). -/
def optStrTruthy : Option String → Bool
  | some s => s ≠ ""
  | Option.none => false

/-- Floor of a rational as an integer, computably (`Int.fdiv` on the
normalized numerator and denominator). -/
def ratFloor (q : ℚ) : ℤ :=
  q.num.fdiv (q.den : ℤ)

/-- Model of Python `round(x)` on an exact rational value: round half to
even (banker rounding), as the builtin does. -/
def pyRoundInt (q : ℚ) : ℤ :=
  let f := ratFloor q
  let r := q - (f : ℚ)
  if r < 1 / 2 then f
  else if 1 / 2 < r then f + 1
  else if f % 2 = 0 then f else f + 1

/-- Model of Python `round(x, 1)` on an exact rational value. -/
def pyRound1 (q : ℚ) : ℚ :=
  (pyRoundInt (q * 10) : ℚ) / 10

/-- Model of Python `int(q)` on a rational: truncation toward zero. -/
def ratTrunc (q : ℚ) : ℤ :=
  q.num / (q.den : ℤ)

/-! ### datetime model

Python `datetime` values carry validated fields; the constructor (and
`fromisoformat`) rejects out-of-range components, so the embedded structure
carries the corresponding bounds.  `weekday` stores the value Python's
`weekday()` derives from the date (Monday = 0 .. Sunday = 6); for parsed
strings it is computed by the day-of-week formula below. -/

structure PyDateTime where
  year : ℤ
  month : ℕ
  day : ℕ
  hour : ℕ
  minute : ℕ
  second : ℕ
  weekday : ℕ
  wf : 1 ≤ month ∧ month ≤ 12 ∧ 1 ≤ day ∧ day ≤ 31 ∧ hour ≤ 23 ∧
    minute ≤ 59 ∧ second ≤ 59 ∧ weekday ≤ 6

/-- Lexicographic comparison key: Python compares datetimes
field-by-field, and with the structure bounds this mixed-radix encoding
realizes exactly that order. -/
def PyDateTime.key (d : PyDateTime) : ℤ :=
  ((((d.year * 13 + d.month) * 32 + d.day) * 24 + d.hour) * 60 + d.minute) * 60 + d.second

/-- Gregorian leap-year test. -/
def isLeapYear (y : ℤ) : Bool :=
  (y % 4 == 0 && y % 100 != 0) || (y % 400 == 0)

/-- Days in a month of a given year (used to validate parsed dates the way
the datetime constructor does). -/
def daysInMonth (y : ℤ) (m : ℕ) : ℕ :=
  if m = 2 then (if isLeapYear y then 29 else 28)
  else if m = 4 ∨ m = 6 ∨ m = 9 ∨ m = 11 then 30
  else 31

theorem daysInMonth_le (y : ℤ) (m : ℕ) : daysInMonth y m ≤ 31 := by
  unfold daysInMonth
  split
  · split <;> omega
  · split <;> omega

/-- Adjusted year of the Sakamoto day-of-week formula. -/
def sakamotoYear (y : ℤ) (m : ℕ) : ℤ :=
  if m < 3 then y - 1 else y

/-- Day of week by the Sakamoto formula, shifted so Monday = 0 as in
Python's `datetime.weekday()`. -/
def dayOfWeek (y : ℤ) (m d : ℕ) : ℕ :=
  ((sakamotoYear y m + (sakamotoYear y m).fdiv 4 - (sakamotoYear y m).fdiv 100 +
      (sakamotoYear y m).fdiv 400 +
      ([0, 3, 2, 5, 0, 3, 5, 1, 4, 6, 2, 4] : List ℤ).getD (m - 1) 0 + (d : ℤ) + 6) % 7).toNat

theorem emod7_toNat_le (x : ℤ) : (x % 7).toNat ≤ 6 := by
  have h1 := Int.emod_lt_of_pos x (by omega : (0 : ℤ) < 7)
  have h2 := Int.emod_nonneg x (by omega : (7 : ℤ) ≠ 0)
  omega

theorem dayOfWeek_le (y : ℤ) (m d : ℕ) : dayOfWeek y m d ≤ 6 := by
  unfold dayOfWeek
  exact emod7_toNat_le _

/-- Validating constructor: the checks `datetime.__new__` performs on its
components.  Returns none (a ValueError in Python) out of range. -/
def mkPyDateTime (y : ℤ) (mo d h mi s : ℕ) : Option PyDateTime :=
  if hv : 1 ≤ mo ∧ mo ≤ 12 ∧ 1 ≤ d ∧ d ≤ daysInMonth y mo ∧ h ≤ 23 ∧ mi ≤ 59 ∧ s ≤ 59 then
    some ⟨y, mo, d, h, mi, s, dayOfWeek y mo d, by
      have hd := daysInMonth_le y mo
      have hw := dayOfWeek_le y mo d
      omega⟩
  else Option.none

/-! ### ISO-8601 parsing (model of `datetime.fromisoformat`)

The script feeds `fromisoformat` strings of the dashed ISO form
`YYYY-MM-DD[ sep HH:MM[:SS[.ffffff]][±HH:MM]]` (the `Z` suffix is rewritten
to `+00:00` by `parse_datetime` before the call).  The parser below accepts
exactly that family, validates the component ranges as the datetime
constructor does, and reports failure the way Python does: a ValueError. -/

inductive PyError
  | valueError
  | typeError
  | otherError
deriving DecidableEq

/-- Value of a run of ASCII digit characters. -/
def digitsVal (cs : List Char) : ℕ :=
  cs.foldl (fun a c => a * 10 + (c.toNat - 48)) 0

/-- Read exactly n digits from the front. -/
def takeDigits (n : ℕ) (cs : List Char) : Option (ℕ × List Char) :=
  if (cs.take n).length = n ∧ (cs.take n).all Char.isDigit then
    some (digitsVal (cs.take n), cs.drop n)
  else Option.none

/-- Expect one specific character at the front. -/
def expectChar (c : Char) : List Char → Option (List Char)
  | [] => Option.none
  | x :: xs => if x = c then some xs else Option.none

/-- Parse an optional fractional-seconds part: a dot followed by one to six
digits, whose value the embedding discards (microseconds play no role in
any aggregate). -/
def parseFrac : List Char → Option (List Char)
  | [] => some []
  | c :: cs =>
    if c = '.' then
      if cs ≠ [] ∧ (cs.takeWhile Char.isDigit).length = cs.length ∧ cs.length ≤ 6 then
        some []
      else Option.none
    else some (c :: cs)

/-- Parse an optional UTC-offset suffix `±HH:MM` (value discarded: the
script never compares aware datetimes from distinct offsets). -/
def parseOffset : List Char → Option Unit
  | [] => some ()
  | c :: cs =>
    if c = '+' ∨ c = '-' then
      match takeDigits 2 cs with
      | some (oh, rest1) =>
        match expectChar ':' rest1 with
        | some rest2 =>
          match takeDigits 2 rest2 with
          | some (om, rest3) =>
            if oh ≤ 23 ∧ om ≤ 59 ∧ rest3 = [] then some () else Option.none
          | Option.none => Option.none
        | Option.none => Option.none
      | Option.none => Option.none
    else Option.none

/-- Parse the clock part `HH:MM[:SS[.frac]][offset]`. -/
def parseClock (y : ℤ) (mo d : ℕ) (cs : List Char) : Option PyDateTime :=
  match takeDigits 2 cs with
  | some (h, rest1) =>
    match expectChar ':' rest1 with
    | some rest2 =>
      match takeDigits 2 rest2 with
      | some (mi, rest3) =>
        match rest3 with
        | ':' :: rest4 =>
          match takeDigits 2 rest4 with
          | some (s, rest5) =>
            match parseFrac rest5 with
            | some rest6 =>
              match parseOffset rest6 with
              | some _ => mkPyDateTime y mo d h mi s
              | Option.none => Option.none
            | Option.none => Option.none
          | Option.none => Option.none
        | rest4 =>
          match parseOffset rest4 with
          | some _ => mkPyDateTime y mo d h mi 0
          | Option.none => Option.none
      | Option.none => Option.none
    | Option.none => Option.none
  | Option.none => Option.none

/-- Parse a full ISO string: date, then optionally a separator and clock. -/
def parseIso (cs : List Char) : Option PyDateTime :=
  match takeDigits 4 cs with
  | some (y, rest1) =>
    match expectChar '-' rest1 with
    | some rest2 =>
      match takeDigits 2 rest2 with
      | some (mo, rest3) =>
        match expectChar '-' rest3 with
        | some rest4 =>
          match takeDigits 2 rest4 with
          | some (d, rest5) =>
            match rest5 with
            | [] => mkPyDateTime (y : ℤ) mo d 0 0 0
            | sep :: rest6 =>
              if sep = 'T' ∨ sep = ' ' then parseClock (y : ℤ) mo d rest6
              else Option.none
          | Option.none => Option.none
        | Option.none => Option.none
      | Option.none => Option.none
    | Option.none => Option.none
  | Option.none => Option.none

/-- Model of `datetime.fromisoformat`: a malformed string raises ValueError. -/
def fromisoformat (s : String) : Except PyError PyDateTime :=
  match parseIso s.data with
  | some d => Except.ok d
  | Option.none => Except.error PyError.valueError

/-! ### The normalizer (`parse_datetime`, `normalize_status`) -/

/-- The raw timestamp values `parse_datetime` can receive: a datetime, a
string (well-formed or not), None, or a value of any other type (of which
only its truthiness matters before the function returns None). -/
inductive PyTimestamp
  | dt (d : PyDateTime)
  | str (s : String)
  | none
  | other (truthy : Bool)

/-- Python truthiness of such a value. -/
def PyTimestamp.truthy : PyTimestamp → Bool
  | .dt _ => true
  | .str s => s ≠ ""
  | .none => false
  | .other b => b

/-- The `Z`-suffix rewriting `parse_datetime` applies before calling
`fromisoformat`: strip a trailing `Z` into `+00:00`, then replace every
remaining `Z` the same way. -/
def zFix (s : String) : String :=
  (if s.endsWith "Z" then s.dropRight 1 ++ "+00:00" else s).replace "Z" "+00:00"

/-- Source translation of `parse_datetime` with the try/except explicit:
the result is an Except so that the possibility of an escaping exception is
part of the statement space. -/
def parse_datetime_try (value : PyTimestamp) : Except PyError (Option PyDateTime) :=
  match value with
  | .dt d => Except.ok (some d)
  | v =>
    if v.truthy then
      match v with
      | .str s =>
        match fromisoformat (zFix s) with
        | Except.ok d => Except.ok (some d)
        | Except.error e =>
          if e = PyError.valueError ∨ e = PyError.typeError then Except.ok Option.none
          else Except.error e
      | _ => Except.ok Option.none
    else Except.ok Option.none

/-- The total function `parse_datetime` computes (the C5 theorem shows the
try/except model never escapes with an error and agrees with this). -/
def parse_datetime (value : PyTimestamp) : Option PyDateTime :=
  match value with
  | .dt d => some d
  | .str s => if s ≠ "" then (fromisoformat (zFix s)).toOption else Option.none
  | _ => Option.none

/-- Source translation of `is_target_year`. -/
def is_target_year (dt : Option PyDateTime) (year : ℤ) : Bool :=
  match dt with
  | some d => d.year == year
  | Option.none => false

/-- The raw status values `normalize_status` can receive: None, a string,
or an enum-like value exposing `.value` (a string). -/
inductive PyStatus
  | none
  | str (s : String)
  | enum (value : String)
deriving DecidableEq

/-- Source translation of `normalize_status`. -/
def normalize_status (status : PyStatus) : String :=
  match status with
  | .none => "unknown"
  | .enum v => pyLower v
  | .str s => pyLower s

/-! ### Entity shapes (section 3 of the spec, as the script reads them) -/

/-- The object `pipeline.project` may hold: its `name` attribute when it
has one, else Python falls back to `str(pipeline.project)`. -/
structure PipelineProjectRef where
  name : Option String
  str_repr : String
deriving DecidableEq

structure Pipeline where
  id : String
  name : String
  project : Option PipelineProjectRef
deriving DecidableEq

/-- The embedded pipeline reference on `run.resources`. -/
structure PipelineRef where
  id : String
  name : String
deriving DecidableEq

structure UserRef where
  id : String
deriving DecidableEq

structure RunResources where
  pipeline : Option PipelineRef
  user : Option UserRef
deriving DecidableEq

/-- A pipeline run as the aggregation stages read it.  `config_name`
models the fallible access `run.config.name` (the try/except in
`get_pipeline_id_and_name` maps any failure to None). -/
structure Run where
  created : PyTimestamp
  status : PyStatus
  user_id : Option String
  resources : Option RunResources
  config_name : Option String

structure User where
  id : String
  name : Option String
  full_name : Option String
  avatar_url : Option String
  is_service_account : Bool
deriving DecidableEq

structure Artifact where
  created : PyTimestamp

/-- The raw value of a count-like model attribute: an int, or a value of
another type on which `int(...)` raises. -/
inductive PyVal
  | vint (n : ℤ)
  | vother (truthy : Bool)
deriving DecidableEq

/-- Python `int(v)` as the source's try/except sees it. -/
def PyVal.toInt : PyVal → Option ℤ
  | .vint n => some n
  | .vother _ => Option.none

/-- Python truthiness of such a value (0 is falsy). -/
def PyVal.truthy : PyVal → Bool
  | .vint n => n ≠ 0
  | .vother b => b

structure PyModel where
  created : PyTimestamp
  number_of_versions : Option PyVal
  num_versions : Option PyVal
  version_count : Option PyVal
  latest_version_name : Option String
  latest_version_id : Option String
  latest_version_number : Option PyVal

structure Schedule where
  active : Bool
deriving DecidableEq

inductive ServiceState
  | active
  | inactive
  | error
deriving DecidableEq

structure Service where
  state : ServiceState
deriving DecidableEq

/-- Stacks contribute only their count. -/
structure Stack where
  id : String
deriving DecidableEq

/-! ### Dictionaries and stable max/min/dedup helpers -/

/-- Python dict insertion: later writes shadow earlier ones. -/
def dinsert (m : String → Option String) (k v : String) : String → Option String :=
  fun x => if x = k then some v else m x

/-- First-encounter-order deduplication, as iterating a Python dict (or
set insertion order) yields.  Stated structurally so it computes by rfl. -/
def pyDedup {α : Type} [DecidableEq α] : List α → List α
  | [] => []
  | x :: xs => x :: (pyDedup xs).filter (fun y => y ≠ x)

/-- Python `max(l, key := k)`: first maximal element of a nonempty list
(ties keep the earliest, because replacement needs a strictly greater
key). -/
def pyMaxBy {α β : Type} [LT β] [DecidableRel (· < · : β → β → Prop)]
    (key : α → β) : List α → Option α
  | [] => Option.none
  | x :: xs => some (xs.foldl (fun acc y => if key acc < key y then y else acc) x)

/-- Python `min(l, key := k)`: first minimal element of a nonempty list. -/
def pyMinBy {α β : Type} [LT β] [DecidableRel (· < · : β → β → Prop)]
    (key : α → β) : List α → Option α
  | [] => Option.none
  | x :: xs => some (xs.foldl (fun acc y => if key y < key acc then y else acc) x)

/-! ### Lookup builder and run resolution -/

/-- Source translation of `build_pipeline_maps`: one pass over the
pipelines, writing the three dictionaries in iteration order. -/
def build_pipeline_maps (pipelines : List Pipeline) :
    (String → Option String) × (String → Option String) × (String → Option String) :=
  pipelines.foldl
    (fun maps pipeline =>
      (dinsert maps.1 pipeline.id pipeline.name,
       dinsert maps.2.1 pipeline.name pipeline.id,
       match pipeline.project with
       | some proj =>
         dinsert maps.2.2 pipeline.id
           (match proj.name with
            | some n => n
            | Option.none => proj.str_repr)
       | Option.none => maps.2.2))
    (fun _ => Option.none, fun _ => Option.none, fun _ => Option.none)

/-- Source translation of `get_pipeline_id_and_name`.  All the Python
truthiness tests (empty strings falsy) are kept. -/
def get_pipeline_id_and_name (run : Run)
    (pipeline_name_by_id pipeline_id_by_name : String → Option String) :
    Option String × Option String :=
  match run.resources.bind (fun rs => rs.pipeline) with
  | some p => (some p.id, some p.name)
  | Option.none =>
    match run.config_name with
    | some pipeline_name =>
      if pipeline_name = "" then (Option.none, Option.none)
      else
        match pipeline_id_by_name pipeline_name with
        | some pipeline_id =>
          if pipeline_id = "" then (Option.none, some pipeline_name)
          else (some pipeline_id, some ((pipeline_name_by_id pipeline_id).getD pipeline_name))
        | Option.none => (Option.none, some pipeline_name)
    | Option.none => (Option.none, Option.none)

/-- Source translation of `get_user_id`. -/
def get_user_id (run : Run) : Option String :=
  match run.user_id with
  | some uid =>
    if uid ≠ "" then some uid
    else
      match run.resources.bind (fun rs => rs.user) with
      | some u => some u.id
      | Option.none => Option.none
  | Option.none =>
    match run.resources.bind (fun rs => rs.user) with
    | some u => some u.id
    | Option.none => Option.none

/-- The resolved, truthy user ids of a run list, in encounter order with
repeats: the stream both `compute_workspace_core_stats` (as a set) and
`compute_user_stats` (as dict keys) consume. -/
def resolvedUserIds (runs : List Run) : List String :=
  (runs.filterMap get_user_id).filter (fun uid => uid ≠ "")

/-- Source translation of `get_model_version_count`: the three count
attributes in order, skipping absent, non-int and negative values; then
the latest-version truthiness fallback. -/
def attrCount (v : Option PyVal) : Option ℤ :=
  match v with
  | Option.none => Option.none
  | some pv =>
    match pv.toInt with
    | Option.none => Option.none
    | some c => if 0 ≤ c then some c else Option.none

def get_model_version_count (model : PyModel) : ℤ :=
  match attrCount model.number_of_versions with
  | some c => c
  | Option.none =>
    match attrCount model.num_versions with
    | some c => c
    | Option.none =>
      match attrCount model.version_count with
      | some c => c
      | Option.none =>
        if optStrTruthy model.latest_version_name ∨ optStrTruthy model.latest_version_id ∨
            (model.latest_version_number.map PyVal.truthy).getD false then 1
        else 0

/-! ### Core / project statistics -/

structure CoreStats where
  total_runs : ℕ
  successful_runs : ℕ
  failed_runs : ℕ
  success_rate : ℚ
  unique_pipelines : ℕ
  unique_users : ℕ
  artifacts_produced : ℕ
  models_created : ℕ
  model_versions : ℤ
  total_stacks : ℕ
  active_schedules : ℕ
  active_services : ℕ
  active_projects : ℕ
  status_breakdown : String → ℕ

/-- The set of resolved, truthy pipeline ids of a run list (the loop body
`if pipeline_id: pipeline_ids.add(...)`). -/
def resolvedPipelineIds (runs : List Run)
    (pipeline_name_by_id pipeline_id_by_name : String → Option String) : List String :=
  (runs.filterMap
      (fun run => (get_pipeline_id_and_name run pipeline_name_by_id pipeline_id_by_name).1)).filter
    (fun pid => pid ≠ "")

/-- Source translation of `compute_workspace_core_stats`. -/
def compute_workspace_core_stats (all_runs : List Run) (all_artifacts : List Artifact)
    (all_models : List PyModel) (stacks_list : List Stack) (all_schedules : List Schedule)
    (all_services : List Service)
    (pipeline_name_by_id pipeline_id_by_name : String → Option String)
    (year : ℤ) (active_project_count : ℕ) : CoreStats :=
  let statuses := all_runs.map (fun run => normalize_status run.status)
  let completed := statuses.count "completed"
  let failed := statuses.count "failed"
  let models_year := all_models.filter (fun m => is_target_year (parse_datetime m.created) year)
  { total_runs := all_runs.length
    successful_runs := completed
    failed_runs := failed
    success_rate :=
      if 0 < all_runs.length then pyRound1 ((completed : ℚ) / (all_runs.length : ℚ) * 100) else 0
    unique_pipelines :=
      (resolvedPipelineIds all_runs pipeline_name_by_id pipeline_id_by_name).toFinset.card
    unique_users := (resolvedUserIds all_runs).toFinset.card
    artifacts_produced :=
      (all_artifacts.filter (fun a => is_target_year (parse_datetime a.created) year)).length
    models_created := models_year.length
    model_versions := (models_year.map get_model_version_count).sum
    total_stacks := stacks_list.length
    active_schedules := (all_schedules.filter (fun s => s.active)).length
    active_services := (all_services.filter (fun s => s.state == ServiceState.active)).length
    active_projects := active_project_count
    status_breakdown := fun s => statuses.count s }

/-- Source translation of `calculate_mom_growth`: the accumulating loop
over indices 1 .. len-1, then the guarded rounded mean. -/
def calculate_mom_growth (runs_per_month : List ℕ) : ℚ :=
  let growth_rates :=
    (List.range' 1 (runs_per_month.length - 1)).foldl
      (fun acc i =>
        if 0 < runs_per_month.getD (i - 1) 0 then
          acc ++ [((runs_per_month.getD i 0 : ℚ) - (runs_per_month.getD (i - 1) 0 : ℚ)) /
            (runs_per_month.getD (i - 1) 0 : ℚ) * 100]
        else acc)
      []
  if growth_rates = [] then 0
  else pyRound1 (growth_rates.sum / (growth_rates.length : ℚ))

/-- The data `extract_project_data` hands to `compute_project_stats`. -/
structure ProjectData where
  project_id : String
  project_name : String
  display_name : String
  runs : List Run
  pipelines : List Pipeline
  artifacts : List Artifact
  models : List PyModel
  schedules : List Schedule
  services : List Service

structure ProjectStat where
  id : String
  name : String
  display_name : String
  total_runs : ℕ
  successful_runs : ℕ
  failed_runs : ℕ
  success_rate : ℚ
  unique_pipelines : ℕ
  unique_users : ℕ
  artifacts_produced : ℕ
  models_created : ℕ
  runs_per_month : List ℕ
  month_over_month_growth : ℚ
deriving DecidableEq

/-- Source translation of `compute_project_stats`. -/
def compute_project_stats (project_data : ProjectData) (year : ℤ)
    (pipeline_name_by_id pipeline_id_by_name : String → Option String) : ProjectStat :=
  let runs := project_data.runs
  let statuses := runs.map (fun run => normalize_status run.status)
  let completed := statuses.count "completed"
  let failed := statuses.count "failed"
  let runs_per_month :=
    (List.range' 1 12).map
      (fun m =>
        runs.countP
          (fun run =>
            match parse_datetime run.created with
            | some created => created.year == year && created.month == m
            | Option.none => false))
  { id := project_data.project_id
    name := project_data.project_name
    display_name := project_data.display_name
    total_runs := runs.length
    successful_runs := completed
    failed_runs := failed
    success_rate :=
      if 0 < runs.length then pyRound1 ((completed : ℚ) / (runs.length : ℚ) * 100) else 0
    unique_pipelines :=
      (resolvedPipelineIds runs pipeline_name_by_id pipeline_id_by_name).toFinset.card
    unique_users := (resolvedUserIds runs).toFinset.card
    artifacts_produced :=
      (project_data.artifacts.filter (fun a => is_target_year (parse_datetime a.created) year)).length
    models_created :=
      (project_data.models.filter (fun m => is_target_year (parse_datetime m.created) year)).length
    runs_per_month := runs_per_month
    month_over_month_growth := calculate_mom_growth runs_per_month }

/-! ### Time analytics -/

def month_names : List String :=
  ["January", "February", "March", "April", "May", "June",
   "July", "August", "September", "October", "November", "December"]

def day_names : List String :=
  ["Monday", "Tuesday", "Wednesday", "Thursday", "Friday", "Saturday", "Sunday"]

structure TimeAnalytics where
  runs_per_month : List ℕ
  busiest_month : Option String
  busiest_month_count : ℕ
  busiest_day : Option String
  busiest_day_count : ℕ
  busiest_hour : Option ℕ
  busiest_hour_count : ℕ
  first_run : Option PyDateTime
  last_run : Option PyDateTime
  weekend_runs : ℕ
  weekday_runs : ℕ
  day_distribution : List (String × ℕ)

/-- The all-default result shape of `compute_time_analytics` (its
`empty_time_analytics` literal).  `first_run`/`last_run` hold the datetime
whose isoformat string the dict would carry. -/
def emptyTimeAnalytics : TimeAnalytics :=
  { runs_per_month := List.replicate 12 0
    busiest_month := Option.none
    busiest_month_count := 0
    busiest_day := Option.none
    busiest_day_count := 0
    busiest_hour := Option.none
    busiest_hour_count := 0
    first_run := Option.none
    last_run := Option.none
    weekend_runs := 0
    weekday_runs := 0
    day_distribution := day_names.map (fun day => (day, 0)) }

/-- The nonempty branch of `compute_time_analytics`, on the list of
successfully parsed timestamps.  Counter iteration order is first
encounter order, so `max(counter, key := counter.get)` is the stable
`pyMaxBy` over `pyDedup` of the bucketed value stream. -/
def nonemptyTimeAnalytics (run_times : List PyDateTime) : TimeAnalytics :=
  let month_count := fun (m : ℕ) => run_times.countP (fun dt => dt.month == m)
  let day_count := fun (i : ℕ) => run_times.countP (fun dt => dt.weekday == i)
  let hour_count := fun (h : ℕ) => run_times.countP (fun dt => dt.hour == h)
  let busiest_month_num := (pyMaxBy month_count (pyDedup (run_times.map PyDateTime.month))).getD 1
  let busiest_day_num := (pyMaxBy day_count (pyDedup (run_times.map PyDateTime.weekday))).getD 0
  let busiest_hour := (pyMaxBy hour_count (pyDedup (run_times.map PyDateTime.hour))).getD 12
  let weekend_runs := run_times.countP (fun dt => 5 ≤ dt.weekday)
  { runs_per_month := (List.range' 1 12).map month_count
    busiest_month := some (month_names.getD (busiest_month_num - 1) "")
    busiest_month_count := month_count busiest_month_num
    busiest_day := some (day_names.getD busiest_day_num "")
    busiest_day_count := day_count busiest_day_num
    busiest_hour := some busiest_hour
    busiest_hour_count := hour_count busiest_hour
    first_run := pyMinBy PyDateTime.key run_times
    last_run := pyMaxBy PyDateTime.key run_times
    weekend_runs := weekend_runs
    weekday_runs := run_times.length - weekend_runs
    day_distribution :=
      (List.range 7).map (fun i => (day_names.getD i "", day_count i)) }

/-- Source translation of `compute_time_analytics` (the parsed-timestamp
list `run_times` is written out at each use). -/
def compute_time_analytics (runs : List Run) : TimeAnalytics :=
  if runs.isEmpty then emptyTimeAnalytics
  else if (runs.filterMap (fun run => parse_datetime run.created)).isEmpty then emptyTimeAnalytics
  else nonemptyTimeAnalytics (runs.filterMap (fun run => parse_datetime run.created))

/-! ### User statistics -/

structure UserStat where
  id : String
  name : String
  full_name : String
  avatar : Option String
  total_runs : ℕ
  failed_runs : ℕ
  completed_runs : ℕ
  success_rate : ℚ
  avg_hour : ℚ
  weekend_runs : ℕ
  unique_pipelines : ℕ
deriving DecidableEq

/-- Stable descending insertion by total run count: an element moves left
past exactly the entries with strictly fewer runs, so ties keep encounter
order — the behavior of Python's stable `sorted(..., reverse := True)`. -/
def insertByRunsDesc (x : UserStat) : List UserStat → List UserStat
  | [] => [x]
  | y :: ys => if y.total_runs < x.total_runs then x :: y :: ys else y :: insertByRunsDesc x ys

def sortByRunsDesc : List UserStat → List UserStat
  | [] => []
  | x :: xs => insertByRunsDesc x (sortByRunsDesc xs)

/-- The per-user body of the `compute_user_stats` loop: the entry built
for one dict key (a resolved user id), or none when the id has no known
user or the user is a service account. -/
def mkUserStat (runs : List Run) (user_lookup : String → Option User)
    (pipeline_name_by_id pipeline_id_by_name : String → Option String)
    (user_id : String) : Option UserStat :=
  match user_lookup user_id with
  | Option.none => Option.none
  | some user =>
    if user.is_service_account then Option.none
    else
      let user_run_list := runs.filter (fun r => get_user_id r == some user_id)
      let total := user_run_list.length
      let failed := user_run_list.countP (fun r => normalize_status r.status == "failed")
      let completed := user_run_list.countP (fun r => normalize_status r.status == "completed")
      let hours := user_run_list.filterMap (fun r => (parse_datetime r.created).map PyDateTime.hour)
      let avg_hour : ℚ :=
        if hours.isEmpty then 12 else ((hours.map (fun h => (h : ℚ))).sum / (hours.length : ℚ))
      let name :=
        match user.name with
        | some n => if n = "" then user_id.take 8 else n
        | Option.none => user_id.take 8
      some
        { id := user_id
          name := name
          full_name :=
            match user.full_name with
            | some f => if f = "" then name else f
            | Option.none => name
          avatar := user.avatar_url
          total_runs := total
          failed_runs := failed
          completed_runs := completed
          success_rate :=
            if 0 < total then pyRound1 ((completed : ℚ) / (total : ℚ) * 100) else 0
          avg_hour := pyRound1 avg_hour
          weekend_runs :=
            user_run_list.countP
              (fun r =>
                match parse_datetime r.created with
                | some created => 5 ≤ created.weekday
                | Option.none => false)
          unique_pipelines :=
            (resolvedPipelineIds user_run_list pipeline_name_by_id pipeline_id_by_name).toFinset.card }

/-- Source translation of `compute_user_stats`: the user lookup keeps the
last user with a given id (dict build order), the grouping keys are the
resolved truthy user ids in first-encounter order, and the result is
stably sorted by descending total. -/
def compute_user_stats (runs : List Run) (users : List User)
    (pipeline_name_by_id pipeline_id_by_name : String → Option String) : List UserStat :=
  let user_lookup := fun uid => users.reverse.find? (fun u => u.id == uid)
  sortByRunsDesc
    ((pyDedup (resolvedUserIds runs)).filterMap
      (mkUserStat runs user_lookup pipeline_name_by_id pipeline_id_by_name))

/-! ### Formatting helpers the awards and fun facts use -/

/-- Python `str.format` with `{:02d}` on a nonnegative value (the script
formats truncated hours and minutes). -/
def pad2 (n : ℤ) : String :=
  if 0 ≤ n ∧ n < 10 then "0" ++ toString n else toString n

def pad2n (n : ℕ) : String :=
  if n < 10 then "0" ++ toString n else toString n

/-- The shortest-repr printing of a one-decimal float, as Python prints
the result of `round(x, 1)`. -/
def fmtRat1 (q : ℚ) : String :=
  let n : ℤ := (q * 10).num / ((q * 10).den : ℤ)
  (if n < 0 then "-" else "") ++ toString (n.natAbs / 10) ++ "." ++ toString (n.natAbs % 10)

/-- Python `{:,}` digit grouping of a natural number. -/
def commaFmt (n : ℕ) : String :=
  ⟨((toString n).data.reverse.enum.foldl
      (fun acc ic =>
        if ic.1 ≠ 0 ∧ ic.1 % 3 = 0 then ic.2 :: ',' :: acc else ic.2 :: acc)
      [])⟩

/-- Python `strftime` directive `%B %d`. -/
def fmtMonthDay (d : PyDateTime) : String :=
  month_names.getD (d.month - 1) "" ++ " " ++ pad2n d.day

/-- Python `strftime` directive `%H:%M`. -/
def fmtHourMinute (d : PyDateTime) : String :=
  pad2n d.hour ++ ":" ++ pad2n d.minute

/-! ### Leaderboards and awards -/

structure TopPipeline where
  name : String
  project : String
  runs : ℕ
deriving DecidableEq

/-- One award record (user awards fill the user fields, project awards
the project field). -/
structure Award where
  title : String
  icon : String
  description : String
  user : Option String := Option.none
  user_email : Option String := Option.none
  avatar : Option String := Option.none
  project : Option String := Option.none
  value : String
deriving DecidableEq

/-- The awards dictionary: each key is present only when its rule fires. -/
structure Awards where
  pipeline_overlord : Option Award := Option.none
  failure_champion : Option Award := Option.none
  success_streak : Option Award := Option.none
  night_owl : Option Award := Option.none
  early_bird : Option Award := Option.none
  weekend_warrior : Option Award := Option.none
  variety_pack : Option Award := Option.none
  workhorse_project : Option Award := Option.none
  rising_star_project : Option Award := Option.none
deriving DecidableEq

/-- Source translation of `compute_awards`.  The `if user_stats:` guard of
the source is equivalent to each user award's `pyMaxBy`/filter returning
none on an empty list, which is how the empty case falls out here; `runs`
is accepted and unused exactly as in the source. -/
def compute_awards (user_stats : List UserStat) (runs : List Run)
    (projects : List ProjectStat) : Awards :=
  let night_key := fun (u : UserStat) => if 18 ≤ u.avg_hour ∨ u.avg_hour ≤ 6 then u.avg_hour else 0
  { pipeline_overlord :=
      (pyMaxBy (fun u => u.total_runs) user_stats).map
        (fun top =>
          let n := top.total_runs
          { title := "Pipeline Overlord", icon := "👑", description := "Ruled the pipeline kingdom",
            user := some top.full_name, user_email := some top.name, avatar := top.avatar,
            value := s!"{n} runs" })
    failure_champion :=
      (pyMaxBy (fun u => u.failed_runs) (user_stats.filter (fun u => 5 ≤ u.failed_runs))).map
        (fun top =>
          let n := top.failed_runs
          { title := "Failure Champion", icon := "🔥", description := "Learning through iteration",
            user := some top.full_name, user_email := some top.name, avatar := top.avatar,
            value := s!"{n} failed runs" })
    success_streak :=
      (pyMaxBy (fun u => u.success_rate) (user_stats.filter (fun u => 20 ≤ u.total_runs))).map
        (fun top =>
          let pct := fmtRat1 top.success_rate
          { title := "Success Streak", icon := "⭐", description := "The reliable one",
            user := some top.full_name, user_email := some top.name, avatar := top.avatar,
            value := s!"{pct}% success rate" })
    night_owl :=
      match pyMaxBy night_key user_stats with
      | some night_owl =>
        if 18 ≤ night_owl.avg_hour ∨ night_owl.avg_hour ≤ 6 then
          let hour := ratTrunc night_owl.avg_hour
          let minute := ratTrunc ((night_owl.avg_hour - (hour : ℚ)) * 60)
          let hh := pad2 hour
          let mm := pad2 minute
          some
            { title := "Night Owl", icon := "🌙", description := "When everyone is asleep",
              user := some night_owl.full_name, user_email := some night_owl.name,
              avatar := night_owl.avatar, value := s!"Avg start time: {hh}:{mm}" }
        else Option.none
      | Option.none => Option.none
    early_bird :=
      (pyMinBy (fun u => u.avg_hour)
          (user_stats.filter (fun u => 5 ≤ u.avg_hour ∧ u.avg_hour ≤ 9))).map
        (fun early_bird =>
          let hour := ratTrunc early_bird.avg_hour
          let minute := ratTrunc ((early_bird.avg_hour - (hour : ℚ)) * 60)
          let hh := pad2 hour
          let mm := pad2 minute
          { title := "Early Bird", icon := "🌅", description := "First to production",
            user := some early_bird.full_name, user_email := some early_bird.name,
            avatar := early_bird.avatar, value := s!"Avg start time: {hh}:{mm}" })
    weekend_warrior :=
      match pyMaxBy (fun u => u.weekend_runs) user_stats with
      | some warrior =>
        if 0 < warrior.weekend_runs then
          let n := warrior.weekend_runs
          some
            { title := "Weekend Warrior", icon := "💪", description := "No rest for ML",
              user := some warrior.full_name, user_email := some warrior.name,
              avatar := warrior.avatar, value := s!"{n} weekend runs" }
        else Option.none
      | Option.none => Option.none
    variety_pack :=
      match pyMaxBy (fun u => u.unique_pipelines) user_stats with
      | some variety =>
        if 1 < variety.unique_pipelines then
          let n := variety.unique_pipelines
          some
            { title := "Variety Pack", icon := "🎨", description := "Jack of all pipelines",
              user := some variety.full_name, user_email := some variety.name,
              avatar := variety.avatar, value := s!"{n} different pipelines" }
        else Option.none
      | Option.none => Option.none
    workhorse_project :=
      (pyMaxBy (fun p => p.total_runs) projects).map
        (fun workhorse =>
          let n := commaFmt workhorse.total_runs
          { title := "Workhorse", icon := "🏋️", description := "The project that never sleeps",
            project := some workhorse.name, value := s!"{n} runs" })
    rising_star_project :=
      match pyMaxBy (fun p => p.month_over_month_growth)
          (projects.filter (fun p => 20 ≤ p.total_runs)) with
      | some rising_star =>
        if 0 < rising_star.month_over_month_growth then
          let g := fmtRat1 rising_star.month_over_month_growth
          some
            { title := "Rising Star", icon := "📈", description := "Biggest growth this year",
              project := some rising_star.name, value := s!"+{g}% MoM growth" }
        else Option.none
      | Option.none => Option.none }

/-! ### Fun facts

The source appends to two lists, `specific_facts` and `generic_facts`,
inside nine conditional stanzas.  Each stanza is translated as a pair of
list-valued blocks (its contribution to each list), and
`generate_fun_facts` is their ordered concatenation.  The spec-side
catalogue `funFactPairsSpec` builds the same stanzas as pairs, which is
what the lockstep claim compares against. -/

structure FunFacts where
  specific : List String
  generic : List String
deriving DecidableEq

def firstRunFactS (time_analytics : TimeAnalytics) : List String :=
  match time_analytics.first_run with
  | some first =>
    let md := fmtMonthDay first
    let hm := fmtHourMinute first
    [s!"Your team\x27s first run of the year was on {md} at {hm}"]
  | Option.none => []

def firstRunFactG (time_analytics : TimeAnalytics) : List String :=
  match time_analytics.first_run with
  | some first =>
    let md := fmtMonthDay first
    let hm := fmtHourMinute first
    [s!"Your team\x27s first run was on {md} at {hm}"]
  | Option.none => []

def busiestDayFact (time_analytics : TimeAnalytics) : List String :=
  if optStrTruthy time_analytics.busiest_day then
    let bd := time_analytics.busiest_day.getD ""
    let c := time_analytics.busiest_day_count
    [s!"{bd} was your most productive day with {c} runs"]
  else []

def busiestMonthFact (time_analytics : TimeAnalytics) : List String :=
  if optStrTruthy time_analytics.busiest_month then
    let bm := time_analytics.busiest_month.getD ""
    let c := time_analytics.busiest_month_count
    [s!"{bm} was your busiest month with {c} pipeline runs"]
  else []

def weekendFact (time_analytics : TimeAnalytics) : List String :=
  if 0 < time_analytics.weekend_runs then
    let pct :=
      pyRoundInt
        ((time_analytics.weekend_runs : ℚ) /
          ((time_analytics.weekend_runs : ℚ) + (time_analytics.weekday_runs : ℚ)) * 100)
    [s!"{pct}% of your runs happened on weekends 🎉"]
  else []

def topPipelineFactS (top_pipelines : List TopPipeline) : List String :=
  match top_pipelines with
  | tp :: _ =>
    let nm := tp.name
    let r := tp.runs
    [s!"Your most-run pipeline was \x27{nm}\x27 with {r} executions"]
  | [] => []

def topPipelineFactG (top_pipelines : List TopPipeline) : List String :=
  match top_pipelines with
  | tp :: _ =>
    let r := tp.runs
    [s!"Your most popular workflow was executed {r} times"]
  | [] => []

def successRateFact (core_stats : CoreStats) : List String :=
  if 90 ≤ core_stats.success_rate then
    let sr := fmtRat1 core_stats.success_rate
    [s!"Your team achieved a {sr}% success rate - impressive! 🎯"]
  else if 70 ≤ core_stats.success_rate then
    let sr := fmtRat1 core_stats.success_rate
    [s!"Your team\x27s success rate was {sr}% - solid experimentation!"]
  else []

def milestoneFact (core_stats : CoreStats) : List String :=
  let total := core_stats.total_runs
  if 1000 ≤ total then ["You crossed the 1,000 pipeline runs milestone! 🚀"]
  else if 500 ≤ total then ["You ran over 500 pipelines this year!"]
  else if 100 ≤ total then [s!"You hit triple digits with {total} pipeline runs!"]
  else []

def modelsFact (core_stats : CoreStats) : List String :=
  if 0 < core_stats.models_created then
    let mc := core_stats.models_created
    let mv := core_stats.model_versions
    [s!"Your team created {mc} models with {mv} total versions"]
  else []

def topProjectFactS (projects : List ProjectStat) : List String :=
  if 1 < projects.length then
    match pyMaxBy (fun p => p.total_runs) projects with
    | some top_project =>
      let nm := top_project.name
      let r := top_project.total_runs
      [s!"Your \x27{nm}\x27 project led the way with {r} runs!"]
    | Option.none => []
  else []

def topProjectFactG (projects : List ProjectStat) : List String :=
  if 1 < projects.length then
    match pyMaxBy (fun p => p.total_runs) projects with
    | some top_project =>
      let r := top_project.total_runs
      [s!"Your top project led the way with {r} runs!"]
    | Option.none => []
  else []

/-- Source translation of `generate_fun_facts` (the `user_stats` argument
is accepted and unused, as in the source). -/
def generate_fun_facts (time_analytics : TimeAnalytics) (core_stats : CoreStats)
    (user_stats : List UserStat) (top_pipelines : List TopPipeline)
    (projects : List ProjectStat) : FunFacts :=
  { specific :=
      firstRunFactS time_analytics ++ busiestDayFact time_analytics ++
        busiestMonthFact time_analytics ++ weekendFact time_analytics ++
        topPipelineFactS top_pipelines ++ successRateFact core_stats ++
        milestoneFact core_stats ++ modelsFact core_stats ++ topProjectFactS projects
    generic :=
      firstRunFactG time_analytics ++ busiestDayFact time_analytics ++
        busiestMonthFact time_analytics ++ weekendFact time_analytics ++
        topPipelineFactG top_pipelines ++ successRateFact core_stats ++
        milestoneFact core_stats ++ modelsFact core_stats ++ topProjectFactG projects }

/-- Spec-side pair for the first-run stanza (the two variants differ). -/
def firstRunPair (time_analytics : TimeAnalytics) : List (String × String) :=
  match time_analytics.first_run with
  | some first =>
    let md := fmtMonthDay first
    let hm := fmtHourMinute first
    [(s!"Your team\x27s first run of the year was on {md} at {hm}",
      s!"Your team\x27s first run was on {md} at {hm}")]
  | Option.none => []

/-- Spec-side pair for the top-pipeline stanza (the generic variant hides
the pipeline name). -/
def topPipelinePair (top_pipelines : List TopPipeline) : List (String × String) :=
  match top_pipelines with
  | tp :: _ =>
    let nm := tp.name
    let r := tp.runs
    [(s!"Your most-run pipeline was \x27{nm}\x27 with {r} executions",
      s!"Your most popular workflow was executed {r} times")]
  | [] => []

/-- Spec-side pair for the leading-project stanza (the generic variant
hides the project name). -/
def topProjectPair (projects : List ProjectStat) : List (String × String) :=
  if 1 < projects.length then
    match pyMaxBy (fun p => p.total_runs) projects with
    | some top_project =>
      let nm := top_project.name
      let r := top_project.total_runs
      [(s!"Your \x27{nm}\x27 project led the way with {r} runs!",
        s!"Your top project led the way with {r} runs!")]
    | Option.none => []
  else []

/-- Spec-side catalogue: the same nine stanzas as (specific, generic)
sentence pairs, each pair built from one underlying fact, in the fixed
catalogue order.  Stanzas whose two variants are the same sentence are the
duplicated source block. -/
def funFactPairsSpec (time_analytics : TimeAnalytics) (core_stats : CoreStats)
    (top_pipelines : List TopPipeline) (projects : List ProjectStat) :
    List (String × String) :=
  firstRunPair time_analytics ++
  (busiestDayFact time_analytics).map (fun f => (f, f)) ++
  (busiestMonthFact time_analytics).map (fun f => (f, f)) ++
  (weekendFact time_analytics).map (fun f => (f, f)) ++
  topPipelinePair top_pipelines ++
  (successRateFact core_stats).map (fun f => (f, f)) ++
  (milestoneFact core_stats).map (fun f => (f, f)) ++
  (modelsFact core_stats).map (fun f => (f, f)) ++
  topProjectPair projects

/-! ### Spec-side definitions and concrete inputs for the claims -/

/-- The empty dictionary (no pipelines known to the lookup maps). -/
def noDict : String → Option String :=
  fun _ => Option.none

/-- Count of runs whose normalized status is neither completed nor
failed: the sum of all other entries of the status breakdown. -/
def otherStatusCount (runs : List Run) : ℕ :=
  runs.countP
    (fun run =>
      decide (normalize_status run.status ≠ "completed" ∧ normalize_status run.status ≠ "failed"))

/-- The month-over-month growth-rate list as the spec words it: over all
indices whose prior month count is nonzero. -/
def momGrowthRatesSpec (runs_per_month : List ℕ) : List ℚ :=
  ((List.range runs_per_month.length).filter
      (fun i => decide (1 ≤ i ∧ 0 < runs_per_month.getD (i - 1) 0))).map
    (fun i => ((runs_per_month.getD i 0 : ℚ) - (runs_per_month.getD (i - 1) 0 : ℚ)) /
      (runs_per_month.getD (i - 1) 0 : ℚ) * 100)

/-- Claim C4 as worded: the exact (unrounded) mean of those rates, 0 when
none qualify. -/
def momGrowthSpec (runs_per_month : List ℕ) : ℚ :=
  if momGrowthRatesSpec runs_per_month = [] then 0
  else (momGrowthRatesSpec runs_per_month).sum / ((momGrowthRatesSpec runs_per_month).length : ℚ)

/-- Claim C7 as amended: first present, int-convertible, nonnegative count
field; then the truthy latest-version fallback. -/
def versionCountSpec (model : PyModel) : ℤ :=
  match ([model.number_of_versions, model.num_versions,
      model.version_count].filterMap attrCount).head? with
  | some c => c
  | Option.none =>
    if optStrTruthy model.latest_version_name ∨ optStrTruthy model.latest_version_id ∨
        (model.latest_version_number.map PyVal.truthy).getD false then 1
    else 0

/-- A run whose only populated field is a failed status (C1 input). -/
def failedRun : Run :=
  { created := PyTimestamp.none, status := PyStatus.str "failed",
    user_id := Option.none, resources := Option.none, config_name := Option.none }

/-- A run created 2024-03-01 10:00 (a Friday), outside a 2025 target year
(C2 input). -/
def run2024 : Run :=
  { created := PyTimestamp.dt ⟨2024, 3, 1, 10, 0, 0, 4, by decide⟩,
    status := PyStatus.str "completed",
    user_id := Option.none, resources := Option.none, config_name := Option.none }

/-- C3 inputs: one user with three runs at hours 20, 22 and 2. -/
def c3run1 : Run :=
  { created := PyTimestamp.dt ⟨2025, 6, 10, 20, 0, 0, 1, by decide⟩,
    status := PyStatus.str "completed",
    user_id := some "u1", resources := Option.none, config_name := Option.none }

def c3run2 : Run :=
  { created := PyTimestamp.dt ⟨2025, 6, 10, 22, 0, 0, 1, by decide⟩,
    status := PyStatus.str "completed",
    user_id := some "u1", resources := Option.none, config_name := Option.none }

def c3run3 : Run :=
  { created := PyTimestamp.dt ⟨2025, 6, 11, 2, 0, 0, 2, by decide⟩,
    status := PyStatus.str "completed",
    user_id := some "u1", resources := Option.none, config_name := Option.none }

def c3user : User :=
  { id := "u1", name := some "alice", full_name := some "Alice Doe",
    avatar_url := Option.none, is_service_account := false }

/-- C4 input: month counts 3, 4, 0, 0, ... (rates 100/3 and -100, exact
mean -100/3, rounded mean -33.3). -/
def c4rpm : List ℕ :=
  [3, 4, 0, 0, 0, 0, 0, 0, 0, 0, 0, 0]

/-- C6 witness input: a run whose created field is a malformed string. -/
def badTsRun : Run :=
  { created := PyTimestamp.str "not-a-date", status := PyStatus.str "running",
    user_id := Option.none, resources := Option.none, config_name := Option.none }

/-- C7 input: the first count field is present but negative, everything
else absent. -/
def c7model : PyModel :=
  { created := PyTimestamp.none, number_of_versions := some (PyVal.vint (-1)),
    num_versions := Option.none, version_count := Option.none,
    latest_version_name := Option.none, latest_version_id := Option.none,
    latest_version_number := Option.none }

/-- C10 strictness input: a run resolving to user id u9, with an empty
user collection. -/
def c10run : Run :=
  { created := PyTimestamp.none, status := PyStatus.str "completed",
    user_id := some "u9", resources := Option.none, config_name := Option.none }

/-! ### Helper lemmas -/

theorem pyLowerChar_not_upper (c : Char) :
    (65 ≤ (pyLowerChar c).toNat && (pyLowerChar c).toNat ≤ 90) = false := by
  unfold pyLowerChar
  split
  · next hc =>
    rw [Char.ofNat, dif_pos (Or.inl (by omega))]
    have he : (Char.ofNatAux (c.toNat + 32) (Or.inl (by omega))).toNat = c.toNat + 32 := rfl
    rw [he]
    simp only [Bool.and_eq_false_iff, decide_eq_false_iff_not]
    omega
  · next hc =>
    simp only [Bool.and_eq_false_iff, decide_eq_false_iff_not]
    omega

theorem pyLower_no_upper (s : String) : hasUpperA (pyLower s) = false := by
  unfold hasUpperA pyLower
  rw [List.any_map]
  rw [List.any_eq_false]
  intro c _
  simp [Function.comp_apply, pyLowerChar_not_upper c]

theorem otherStatusCount_cons (r : Run) (t : List Run) :
    otherStatusCount (r :: t) = otherStatusCount t +
      if normalize_status r.status = "completed" ∨ normalize_status r.status = "failed" then 0
      else 1 := by
  unfold otherStatusCount
  rw [List.countP_cons]
  by_cases h1 : normalize_status r.status = "completed" <;>
    by_cases h2 : normalize_status r.status = "failed" <;> simp [h1, h2]

/-- Completed runs, failed runs and all other statuses partition any run
list. -/
theorem status_partition (runs : List Run) :
    (runs.map (fun run => normalize_status run.status)).count "completed" +
      (runs.map (fun run => normalize_status run.status)).count "failed" +
      otherStatusCount runs = runs.length := by
  induction runs with
  | nil => rfl
  | cons r t ih =>
    simp only [List.map_cons, List.count_cons, otherStatusCount_cons, List.length_cons]
    by_cases h1 : normalize_status r.status = "completed" <;>
      by_cases h2 : normalize_status r.status = "failed" <;>
      simp only [h1, h2, beq_iff_eq] <;> simp <;> omega

theorem sum_map_add (ms : List ℕ) (f g : ℕ → ℕ) :
    (ms.map (fun m => f m + g m)).sum = (ms.map f).sum + (ms.map g).sum := by
  induction ms with
  | nil => simp
  | cons a t ih =>
    simp [ih]
    omega

theorem bucket_one (n : ℕ) (h1 : 1 ≤ n) (h2 : n ≤ 12) :
    ((List.range' 1 12).map (fun m => if n = m then 1 else 0)).sum = 1 := by
  interval_cases n <;> decide

/-- Every timestamp lands in exactly one of the twelve month buckets. -/
theorem month_bucket_sum (l : List PyDateTime) :
    ((List.range' 1 12).map (fun m => l.countP (fun dt => dt.month == m))).sum = l.length := by
  induction l with
  | nil => simp
  | cons dt t ih =>
    have hw := dt.wf
    simp only [List.countP_cons, beq_iff_eq]
    rw [sum_map_add (f := fun m => t.countP (fun x => x.month == m))
        (g := fun m => if dt.month = m then 1 else 0)]
    · rw [ih, bucket_one dt.month (by omega) (by omega)]
      simp

/-- The append-accumulating loop of `calculate_mom_growth` is a
filter-then-map. -/
theorem foldl_append_filter_map {α β : Type} (p : α → Prop) [DecidablePred p] (f : α → β)
    (l : List α) (acc : List β) :
    l.foldl (fun a i => if p i then a ++ [f i] else a) acc =
      acc ++ (l.filter (fun i => decide (p i))).map f := by
  induction l generalizing acc with
  | nil => simp
  | cons x t ih =>
    by_cases hx : p x <;> simp [hx, ih, List.filter_cons]

/-- The spec-side rate list over `range n` coincides with the source loop
range `range' 1 (n-1)`: index 0 never qualifies. -/
theorem momGrowthRatesSpec_eq (rpm : List ℕ) :
    momGrowthRatesSpec rpm =
      ((List.range' 1 (rpm.length - 1)).filter (fun i => decide (0 < rpm.getD (i - 1) 0))).map
        (fun i => ((rpm.getD i 0 : ℚ) - (rpm.getD (i - 1) 0 : ℚ)) /
          (rpm.getD (i - 1) 0 : ℚ) * 100) := by
  unfold momGrowthRatesSpec
  cases hn : rpm.length with
  | zero => simp
  | succ m =>
    rw [List.range_eq_range', List.range'_succ]
    rw [List.filter_cons]
    have h0 : (decide (1 ≤ 0 ∧ 0 < rpm.getD (0 - 1) 0)) = false := by simp
    rw [h0]
    simp only [Nat.add_sub_cancel]
    congr 1
    apply List.filter_congr
    intro i hi
    have h1 : 1 ≤ i := (List.mem_range'_1.mp hi).1
    simp [h1]

/-- pyDedup keeps exactly the members of its input. -/
theorem pyDedup_mem {α : Type} [DecidableEq α] (a : α) (l : List α) :
    a ∈ pyDedup l ↔ a ∈ l := by
  induction l with
  | nil => simp [pyDedup]
  | cons x t ih =>
    by_cases hax : a = x
    · simp [pyDedup, hax]
    · simp [pyDedup, hax, List.mem_filter, ih]

/-- pyDedup yields a duplicate-free list. -/
theorem pyDedup_nodup {α : Type} [DecidableEq α] (l : List α) : (pyDedup l).Nodup := by
  induction l with
  | nil => simp [pyDedup]
  | cons x t ih =>
    refine List.Nodup.cons ?_ (List.Nodup.filter _ ih)
    intro hx
    have := (List.mem_filter.mp hx).2
    simp at this

/-- The number of dict keys (first-encounter dedup) is the cardinality of
the id set. -/
theorem pyDedup_length_eq_card {α : Type} [DecidableEq α] (l : List α) :
    (pyDedup l).length = l.toFinset.card := by
  rw [← List.toFinset_card_of_nodup (pyDedup_nodup l)]
  congr 1
  ext a
  simp [List.mem_toFinset, pyDedup_mem]

theorem insertByRunsDesc_length (x : UserStat) (l : List UserStat) :
    (insertByRunsDesc x l).length = l.length + 1 := by
  induction l with
  | nil => rfl
  | cons y t ih =>
    unfold insertByRunsDesc
    split <;> simp [ih]

theorem sortByRunsDesc_length (l : List UserStat) :
    (sortByRunsDesc l).length = l.length := by
  induction l with
  | nil => rfl
  | cons x t ih =>
    unfold sortByRunsDesc
    rw [insertByRunsDesc_length, ih]
    rfl

theorem insertByRunsDesc_mem (a x : UserStat) (l : List UserStat) :
    a ∈ insertByRunsDesc x l ↔ a = x ∨ a ∈ l := by
  induction l with
  | nil => simp [insertByRunsDesc]
  | cons y t ih =>
    unfold insertByRunsDesc
    split
    · simp
    · simp [ih]
      tauto

theorem sortByRunsDesc_mem (a : UserStat) (l : List UserStat) :
    a ∈ sortByRunsDesc l ↔ a ∈ l := by
  induction l with
  | nil => simp [sortByRunsDesc]
  | cons x t ih =>
    unfold sortByRunsDesc
    rw [insertByRunsDesc_mem]
    simp [ih]

/-- The user-stat entry built for a dict key carries that key as its id. -/
theorem mkUserStat_id (runs : List Run) (user_lookup : String → Option User)
    (m1 m2 : String → Option String) (uid : String) (s : UserStat)
    (h : mkUserStat runs user_lookup m1 m2 uid = some s) : s.id = uid := by
  unfold mkUserStat at h
  rcases hu : user_lookup uid with _ | user
  · rw [hu] at h
    simp at h
  · rw [hu] at h
    by_cases hsa : user.is_service_account
    · simp [hsa] at h
    · simp only [hsa, if_false] at h
      injection h with h2
      rw [← h2]

/-! ### Fun-fact pairing lemmas -/

theorem map_fst_dup (l : List String) : (l.map (fun f => (f, f))).map Prod.fst = l := by
  induction l with
  | nil => rfl
  | cons x t ih => simp [ih]

theorem map_snd_dup (l : List String) : (l.map (fun f => (f, f))).map Prod.snd = l := by
  induction l with
  | nil => rfl
  | cons x t ih => simp [ih]

theorem firstRunPair_fst (ta : TimeAnalytics) :
    (firstRunPair ta).map Prod.fst = firstRunFactS ta := by
  unfold firstRunPair firstRunFactS
  rcases ta.first_run <;> simp

theorem firstRunPair_snd (ta : TimeAnalytics) :
    (firstRunPair ta).map Prod.snd = firstRunFactG ta := by
  unfold firstRunPair firstRunFactG
  rcases ta.first_run <;> simp

theorem topPipelinePair_fst (tp : List TopPipeline) :
    (topPipelinePair tp).map Prod.fst = topPipelineFactS tp := by
  unfold topPipelinePair topPipelineFactS
  rcases tp <;> simp

theorem topPipelinePair_snd (tp : List TopPipeline) :
    (topPipelinePair tp).map Prod.snd = topPipelineFactG tp := by
  unfold topPipelinePair topPipelineFactG
  rcases tp <;> simp

theorem topProjectPair_fst (projs : List ProjectStat) :
    (topProjectPair projs).map Prod.fst = topProjectFactS projs := by
  unfold topProjectPair topProjectFactS
  split
  · rcases hm : pyMaxBy (fun p => p.total_runs) projs <;> simp [hm]
  · rfl

theorem topProjectPair_snd (projs : List ProjectStat) :
    (topProjectPair projs).map Prod.snd = topProjectFactG projs := by
  unfold topProjectPair topProjectFactG
  split
  · rcases hm : pyMaxBy (fun p => p.total_runs) projs <;> simp [hm]
  · rfl

/-! ### Claim theorems -/

/-- C1 counterexample: a single failed run yields success_rate 0 with
total_runs 1, so success_rate == 0 does not imply total_runs == 0 and the
claimed equivalence fails on this input. -/
theorem C1_success_rate_zero_iff_counterexample :
    (compute_workspace_core_stats [failedRun] [] [] [] [] [] noDict noDict 2025 0).success_rate
        = 0 ∧
      (compute_workspace_core_stats [failedRun] [] [] [] [] [] noDict noDict 2025 0).total_runs
        = 1 ∧
      ¬(((compute_workspace_core_stats [failedRun] [] [] [] [] [] noDict noDict
            2025 0).success_rate = 0) ↔
        (compute_workspace_core_stats [failedRun] [] [] [] [] [] noDict noDict
            2025 0).total_runs = 0) := by
  with_unfolding_all decide

/-- C1 (amended): in both the workspace core stage and the per-project
stage, successful_runs + failed_runs + the count of all other normalized
statuses equals total_runs, and success_rate is completed/total*100
rounded to one decimal when total_runs is positive and 0 when total_runs
is 0; total_runs = 0 still forces success_rate = 0, but the claimed
equivalence fails in the other direction (see the counterexample). -/
theorem C1_status_partition_and_success_rate :
    ∀ (all_runs : List Run) (all_artifacts : List Artifact) (all_models : List PyModel)
      (stacks_list : List Stack) (all_schedules : List Schedule) (all_services : List Service)
      (m1 m2 : String → Option String) (year : ℤ) (apc : ℕ) (project_data : ProjectData),
      ((compute_workspace_core_stats all_runs all_artifacts all_models stacks_list all_schedules
              all_services m1 m2 year apc).successful_runs +
            (compute_workspace_core_stats all_runs all_artifacts all_models stacks_list
              all_schedules all_services m1 m2 year apc).failed_runs +
            otherStatusCount all_runs =
          (compute_workspace_core_stats all_runs all_artifacts all_models stacks_list
            all_schedules all_services m1 m2 year apc).total_runs) ∧
        ((compute_workspace_core_stats all_runs all_artifacts all_models stacks_list all_schedules
              all_services m1 m2 year apc).success_rate =
          if 0 < (compute_workspace_core_stats all_runs all_artifacts all_models stacks_list
              all_schedules all_services m1 m2 year apc).total_runs then
            pyRound1
              (((compute_workspace_core_stats all_runs all_artifacts all_models stacks_list
                    all_schedules all_services m1 m2 year apc).successful_runs : ℚ) /
                  ((compute_workspace_core_stats all_runs all_artifacts all_models stacks_list
                    all_schedules all_services m1 m2 year apc).total_runs : ℚ) * 100)
          else 0) ∧
        ((compute_project_stats project_data year m1 m2).successful_runs +
            (compute_project_stats project_data year m1 m2).failed_runs +
            otherStatusCount project_data.runs =
          (compute_project_stats project_data year m1 m2).total_runs) ∧
        ((compute_project_stats project_data year m1 m2).success_rate =
          if 0 < (compute_project_stats project_data year m1 m2).total_runs then
            pyRound1 (((compute_project_stats project_data year m1 m2).successful_runs : ℚ) /
              ((compute_project_stats project_data year m1 m2).total_runs : ℚ) * 100)
          else 0) := by
  intro all_runs all_artifacts all_models stacks_list all_schedules all_services m1 m2 year apc
    project_data
  exact ⟨status_partition all_runs, rfl, status_partition project_data.runs, rfl⟩

/-- C2 counterexample: a run created in 2024 with a 2025 target year is
still bucketed, so the runs_per_month total is 1 while no run in the
collection has a parseable timestamp in the target year. -/
theorem C2_out_of_year_counterexample :
    (compute_time_analytics [run2024]).runs_per_month.sum = 1 ∧
      [run2024].countP (fun run => is_target_year (parse_datetime run.created) 2025) = 0 := by
  with_unfolding_all decide

/-- C2 (amended): the twelve runs_per_month entries always sum to the
number of runs with a parseable created timestamp; the stage itself
applies no year filter (only the fetch layer does), so the claim holds
with "in the target year" dropped. -/
theorem C2_runs_per_month_sum :
    ∀ runs : List Run,
      (compute_time_analytics runs).runs_per_month.sum =
        (runs.filterMap (fun run => parse_datetime run.created)).length := by
  intro runs
  unfold compute_time_analytics
  split
  · next h =>
    rw [List.isEmpty_iff.mp h]
    simp [emptyTimeAnalytics]
  · next h =>
    split
    · next h2 =>
      rw [List.isEmpty_iff.mp h2]
      simp [emptyTimeAnalytics]
    · next h2 =>
      exact month_bucket_sum _

/-- C3 (confirmed): for a single user whose three runs start at hours 20,
22 and 2, the stored average hour is 14.7 (the rounded mean 44/3), which
lies outside the Night-Owl window, so the award stage emits no night_owl
entry — the rule is mean-based, not majority-based. -/
theorem C3_night_owl_is_average_based :
    (compute_user_stats [c3run1, c3run2, c3run3] [c3user] noDict noDict).map UserStat.avg_hour =
        [147 / 10] ∧
      (compute_awards (compute_user_stats [c3run1, c3run2, c3run3] [c3user] noDict noDict)
          [c3run1, c3run2, c3run3] []).night_owl = Option.none := by
  with_unfolding_all decide

/-- C4 counterexample: on month counts 3, 4, 0, ... the implementation
returns the rounded mean -33.3 while the claimed exact mean of the
qualifying rates is -100/3, so the claim as stated fails. -/
theorem C4_rounding_counterexample :
    calculate_mom_growth c4rpm = -333 / 10 ∧ momGrowthSpec c4rpm = -100 / 3 ∧
      calculate_mom_growth c4rpm ≠ momGrowthSpec c4rpm := by
  with_unfolding_all decide

/-- C4 (amended): the month-over-month growth equals the mean of
(month[i]-month[i-1])/month[i-1]*100 over the indices with a nonzero
prior month, rounded to one decimal as the last step, and 0 when no index
qualifies. -/
theorem C4_mom_growth_is_rounded_mean :
    ∀ runs_per_month : List ℕ,
      calculate_mom_growth runs_per_month =
        if momGrowthRatesSpec runs_per_month = [] then 0
        else pyRound1 ((momGrowthRatesSpec runs_per_month).sum /
          ((momGrowthRatesSpec runs_per_month).length : ℚ)) := by
  intro rpm
  simp only [calculate_mom_growth]
  rw [momGrowthRatesSpec_eq]
  rw [foldl_append_filter_map (p := fun i => 0 < rpm.getD (i - 1) 0)]
  simp only [List.nil_append]

/-- C5 (confirmed): the try/except in parse_datetime catches every error
its body can raise, so it returns Except.ok of the total function on all
four input shapes; and normalize_status always returns a lowercase
string, with the unknown default on the absent case. -/
theorem C5_normalizer_total :
    (∀ value : PyTimestamp, parse_datetime_try value = Except.ok (parse_datetime value)) ∧
      (∀ status : PyStatus, hasUpperA (normalize_status status) = false) ∧
      normalize_status PyStatus.none = "unknown" := by
  refine ⟨?_, ?_, rfl⟩
  · intro value
    cases value with
    | dt d => rfl
    | none => rfl
    | other b => cases b <;> rfl
    | str s =>
      by_cases hs : s = ""
      · subst hs
        rfl
      · have ht : (PyTimestamp.str s).truthy = true := by
          simp [PyTimestamp.truthy, hs]
        simp only [parse_datetime_try, parse_datetime, ht, if_true, if_pos hs]
        rcases hf : fromisoformat (zFix s) with e | d
        · have he : e = PyError.valueError := by
            unfold fromisoformat at hf
            rcases hp : parseIso (zFix s).data with _ | d2
            · rw [hp] at hf
              injection hf with h2
              exact h2.symm
            · rw [hp] at hf
              cases hf
          subst he
          simp [Except.toOption]
        · simp [Except.toOption]
  · intro status
    cases status with
    | none => decide
    | str s => exact pyLower_no_upper s
    | enum v => exact pyLower_no_upper v

/-- C6 (confirmed): an empty run collection, and likewise one whose runs
all have unparseable timestamps, yields the fully-defaulted time
analytics shape: twelve zero month buckets, null busiest buckets and
first/last run, zero counts, and a seven-day all-zero distribution. -/
theorem C6_empty_input_default_shape :
    (compute_time_analytics [] =
        { runs_per_month := List.replicate 12 0
          busiest_month := Option.none
          busiest_month_count := 0
          busiest_day := Option.none
          busiest_day_count := 0
          busiest_hour := Option.none
          busiest_hour_count := 0
          first_run := Option.none
          last_run := Option.none
          weekend_runs := 0
          weekday_runs := 0
          day_distribution := [("Monday", 0), ("Tuesday", 0), ("Wednesday", 0), ("Thursday", 0),
            ("Friday", 0), ("Saturday", 0), ("Sunday", 0)] }) ∧
      ∀ runs : List Run, (∀ run ∈ runs, parse_datetime run.created = Option.none) →
        compute_time_analytics runs =
          { runs_per_month := List.replicate 12 0
            busiest_month := Option.none
            busiest_month_count := 0
            busiest_day := Option.none
            busiest_day_count := 0
            busiest_hour := Option.none
            busiest_hour_count := 0
            first_run := Option.none
            last_run := Option.none
            weekend_runs := 0
            weekday_runs := 0
            day_distribution := [("Monday", 0), ("Tuesday", 0), ("Wednesday", 0), ("Thursday", 0),
              ("Friday", 0), ("Saturday", 0), ("Sunday", 0)] } := by
  constructor
  · rfl
  · intro runs h
    unfold compute_time_analytics
    split
    · rfl
    · next h1 =>
      split
      · rfl
      · next h2 =>
        exfalso
        have h3 : runs.filterMap (fun run => parse_datetime run.created) = [] :=
          List.filterMap_eq_nil_iff.mpr h
        rw [h3] at h2
        simp at h2

/-- C7 counterexample: a model whose first count field is present with
value -1 (and no other fields) yields 0, not the first present field
value, so "resolved as the first present count field" fails: negative and
non-convertible values are skipped. -/
theorem C7_negative_count_counterexample :
    c7model.number_of_versions = some (PyVal.vint (-1)) ∧
      get_model_version_count c7model = 0 ∧ ((-1 : ℤ) ≠ 0) := by
  with_unfolding_all decide

/-- C7 (amended): the version count is the first present count field whose
value converts to a nonnegative int (absent, non-convertible and negative
values are skipped); if none qualifies it is 1 when any latest-version
reference is truthy (non-null and nonempty/nonzero), else 0. -/
theorem C7_version_count_resolution :
    ∀ model : PyModel, get_model_version_count model = versionCountSpec model := by
  intro m
  unfold get_model_version_count versionCountSpec
  rcases h1 : attrCount m.number_of_versions with _ | c1 <;>
    rcases h2 : attrCount m.num_versions with _ | c2 <;>
      rcases h3 : attrCount m.version_count with _ | c3 <;>
        simp [h1, h2, h3, List.filterMap_cons]

/-- C8 (confirmed): the id_by_name map built by the lookup builder sends
every name to the id of the last pipeline with that name in iteration
order (and to nothing when no pipeline has the name): last write wins for
every input collection and every duplicated name. -/
theorem C8_id_by_name_last_write_wins :
    ∀ (pipelines : List Pipeline) (name : String),
      (build_pipeline_maps pipelines).2.1 name =
        ((pipelines.filter (fun p => p.name == name)).getLast?).map Pipeline.id := by
  intro pipelines name
  induction pipelines using List.reverseRecOn with
  | nil => rfl
  | append_singleton l p ih =>
    unfold build_pipeline_maps at ih ⊢
    rw [List.foldl_append]
    simp only [List.foldl_cons, List.foldl_nil]
    rw [List.filter_append]
    simp only [List.filter_cons, List.filter_nil]
    by_cases hp : p.name = name
    · have hb : (p.name == name) = true := by simp [hp]
      rw [if_pos hb]
      rw [List.getLast?_concat]
      show dinsert _ p.name p.id name = some p.id
      unfold dinsert
      rw [if_pos hp.symm]
    · have hb : ¬((p.name == name) = true) := by simp [hp]
      rw [if_neg hb]
      rw [List.append_nil]
      show dinsert _ p.name p.id name = _
      unfold dinsert
      rw [if_neg (fun hn => hp hn.symm)]
      exact ih

/-- C9 (confirmed): for every input, the specific and generic fun-fact
lists are the first and second projections of one ordered catalogue of
fact pairs, so corresponding entries come from the same underlying fact,
appear in the same fixed order, and the two lists always have equal
length (omitted stanzas shorten both in lockstep). -/
theorem C9_fun_fact_lists_in_lockstep :
    ∀ (time_analytics : TimeAnalytics) (core_stats : CoreStats) (user_stats : List UserStat)
      (top_pipelines : List TopPipeline) (projects : List ProjectStat),
      (generate_fun_facts time_analytics core_stats user_stats top_pipelines projects).specific =
          (funFactPairsSpec time_analytics core_stats top_pipelines projects).map Prod.fst ∧
        (generate_fun_facts time_analytics core_stats user_stats top_pipelines projects).generic =
          (funFactPairsSpec time_analytics core_stats top_pipelines projects).map Prod.snd ∧
        (generate_fun_facts time_analytics core_stats user_stats top_pipelines
              projects).specific.length =
          (generate_fun_facts time_analytics core_stats user_stats top_pipelines
            projects).generic.length := by
  intro ta cs us tp projs
  have hs : (generate_fun_facts ta cs us tp projs).specific =
      (funFactPairsSpec ta cs tp projs).map Prod.fst := by
    simp only [generate_fun_facts, funFactPairsSpec, List.map_append, map_fst_dup,
      firstRunPair_fst, topPipelinePair_fst, topProjectPair_fst]
  have hg : (generate_fun_facts ta cs us tp projs).generic =
      (funFactPairsSpec ta cs tp projs).map Prod.snd := by
    simp only [generate_fun_facts, funFactPairsSpec, List.map_append, map_snd_dup,
      firstRunPair_snd, topPipelinePair_snd, topProjectPair_snd]
  refine ⟨hs, hg, ?_⟩
  rw [hs, hg, List.length_map, List.length_map]

/-- C10 (confirmed): the user-statistics list never has more entries than
the unique_users count computed from the same runs, every entry id is one
of the resolved user ids that unique_users counts, and the inequality can
be strict: a resolved id absent from the user collection (or a service
account) is counted by unique_users but dropped from user stats. -/
theorem C10_user_stats_bounded_by_unique_users :
    (∀ (runs : List Run) (users : List User) (m1 m2 : String → Option String)
        (artifacts : List Artifact) (models : List PyModel) (stacks_list : List Stack)
        (schedules : List Schedule) (services : List Service) (year : ℤ) (apc : ℕ),
        (compute_user_stats runs users m1 m2).length ≤
            (compute_workspace_core_stats runs artifacts models stacks_list schedules services
              m1 m2 year apc).unique_users ∧
          ∀ stat ∈ compute_user_stats runs users m1 m2, stat.id ∈ resolvedUserIds runs) ∧
      (compute_user_stats [c10run] [] noDict noDict).length <
        (compute_workspace_core_stats [c10run] [] [] [] [] [] noDict noDict 2025 0).unique_users := by
  constructor
  · intro runs users m1 m2 artifacts models stacks_list schedules services year apc
    constructor
    · show (sortByRunsDesc ((pyDedup (resolvedUserIds runs)).filterMap
          (mkUserStat runs (fun uid => users.reverse.find? (fun u => u.id == uid)) m1 m2))).length ≤
        (resolvedUserIds runs).toFinset.card
      rw [sortByRunsDesc_length]
      calc ((pyDedup (resolvedUserIds runs)).filterMap
            (mkUserStat runs (fun uid => users.reverse.find? (fun u => u.id == uid))
              m1 m2)).length ≤
          (pyDedup (resolvedUserIds runs)).length := List.length_filterMap_le _ _
        _ = (resolvedUserIds runs).toFinset.card := pyDedup_length_eq_card _
    · intro stat hstat
      have hmem : stat ∈ (pyDedup (resolvedUserIds runs)).filterMap
          (mkUserStat runs (fun uid => users.reverse.find? (fun u => u.id == uid)) m1 m2) :=
        (sortByRunsDesc_mem stat _).mp hstat
      rcases List.mem_filterMap.mp hmem with ⟨uid, huid, hmk⟩
      have hid := mkUserStat_id runs _ m1 m2 uid stat hmk
      rw [hid]
      exact (pyDedup_mem uid _).mp huid
  · with_unfolding_all decide
